import Mathlib

/-!
Shallow embedding of the cycle-lifecycle / record-locking core of the
maintenance-record application (`src/app.py`).

The PostgreSQL tables `ciclos` and `mantenimiento` are modelled as Lean
lists of structures; the SERIAL primary-key counters are carried
explicitly in the `DB` state (`nextCicloId`, `nextMantId`).  Each Flask
route that mutates state is embedded as a pure function `DB → … → DB ×
Outcome`, where the outcome constructor records which `flash` branch the
route took (a `warning`/`info` flash followed by a redirect is a
non-fatal, user-visible report; none of the embedded routes has an
error-raising branch).  `date.today()` is threaded in as an explicit
`today : String` argument.  Python truthiness tests on integers coming
from the request/session (`if empresa_id:`, `if ciclo_id:`) are modelled
by `optTruthy`, which treats both `none` and `some 0` as falsy, exactly
as Python does.
-/

/-- Row of the `ciclos` table (app.py, `init_db`). `trimestre` and `anio`
pass through from the form unchanged and are never inspected by the core,
so they are kept as strings. -/
structure Ciclo where
  id : Nat
  nombre : String
  trimestre : String
  anio : String
  fecha_inicio : String
  fecha_cierre : Option String
  observaciones : String
  activo : Bool
  empresa_id : Option Nat
deriving DecidableEq

/-- Row of the `mantenimiento` table (app.py, `init_db`). -/
structure Mantenimiento where
  id : Nat
  sede : String
  fecha : String
  area : String
  tecnico : String
  nombre_maquina : String
  usuario : String
  tipo_equipo : String
  marca : String
  modelo : String
  serial : String
  sistema_operativo : String
  office : String
  antivirus : String
  compresor : String
  control_remoto : String
  activo_fijo : String
  observaciones : String
  cerrado : Bool
  ciclo_id : Option Nat
  empresa_id : Option Nat
deriving DecidableEq

/-- Database state: the two tables the core mutates, plus the SERIAL
counters (SERIAL ids start at 1 and never decrease). -/
structure DB where
  ciclos : List Ciclo
  mantenimiento : List Mantenimiento
  nextCicloId : Nat
  nextMantId : Nat
deriving DecidableEq

/-- Python truthiness of an optional integer: `None` and `0` are falsy.
Models guards such as `if empresa_id:` and `if ciclo_id:` in app.py. -/
def optTruthy : Option Nat → Bool
  | none => false
  | some n => n != 0

/-- `ORDER BY id DESC LIMIT 1` over a result set: the row with the
largest id (the first one on a tie, which cannot occur for a SERIAL
primary key). -/
def maxById : List Ciclo → Option Ciclo
  | [] => none
  | c :: t =>
    match maxById t with
    | none => some c
    | some m => if m.id > c.id then some m else some c

/-- `get_active_cycle` (app.py lines 201-215):
`SELECT * FROM ciclos WHERE activo=TRUE [AND empresa_id=%s] ORDER BY id
DESC LIMIT 1`; the company filter applies only when `empresa_id` is
truthy. -/
def get_active_cycle (db : DB) (empresa_id : Option Nat) : Option Ciclo :=
  if optTruthy empresa_id then
    maxById (db.ciclos.filter (fun c => c.activo && c.empresa_id == empresa_id))
  else
    maxById (db.ciclos.filter (fun c => c.activo))

/-- Outcome of the `admin_ciclos` create-new-cycle action. -/
inductive OpenResult where
  | rejectedNoEmpresa
  | created (id : Nat)
deriving DecidableEq

/-- Outcome of the `admin_ciclos` close-cycle action.  `noActive` is the
warning flash "No hay ciclo activo para cerrar en esta empresa." -/
inductive CloseResult where
  | rejectedNoEmpresa
  | noActive
  | closed (id : Nat)
deriving DecidableEq

/-- Outcome of saving a new record in `principal`. -/
inductive SaveResult where
  | noActiveCycle
  | saved (id : Nat)
deriving DecidableEq

/-- Outcome of `actualizar_registro`.  `locked` is the warning flash
"Este registro pertenece a un ciclo cerrado y no se puede modificar." -/
inductive UpdateResult where
  | notFound
  | locked
  | updated
deriving DecidableEq

/-- Outcome of `eliminar`. -/
inductive DeleteResult where
  | notFound
  | locked
  | deleted
deriving DecidableEq

/-- Inputs of one create-new-cycle request (`action='nuevo'`): the
selected company and the form fields, with the route's defaults already
resolved to strings. -/
structure OpenOp where
  empresa_id : Option Nat
  today : String
  nombre : String
  trimestre : String
  anio : String
  fecha_inicio : String
  observaciones : String
deriving DecidableEq

/-- Per-row effect of `UPDATE ciclos SET activo=FALSE, fecha_cierre=%s
WHERE activo=TRUE AND empresa_id=%s` (SQL `=` never matches a NULL
`empresa_id`). -/
def deactivaActivos (eSel : Option Nat) (today : String) (c : Ciclo) : Ciclo :=
  if c.activo && c.empresa_id == eSel then
    { c with activo := false, fecha_cierre := some today }
  else c

/-- Per-row effect of `UPDATE ciclos SET activo=FALSE, fecha_cierre=%s
WHERE id=%s`. -/
def cierraPorId (cid : Nat) (today : String) (c : Ciclo) : Ciclo :=
  if c.id == cid then { c with activo := false, fecha_cierre := some today } else c

/-- Per-row effect of `UPDATE mantenimiento SET cerrado=TRUE WHERE
ciclo_id=%s`. -/
def cierraRegistroDe (cid : Nat) (m : Mantenimiento) : Mantenimiento :=
  if m.ciclo_id == some cid then { m with cerrado := true } else m

/-- `admin_ciclos`, `action='nuevo'` (app.py lines 462-489): reject when
no company is selected; otherwise `UPDATE ciclos SET activo=FALSE,
fecha_cierre=today WHERE activo=TRUE AND empresa_id=%s`, then INSERT the
new cycle with `activo=TRUE`.  Note: this path does not touch the
`mantenimiento` table. -/
def nuevoCicloRow (db : DB) (op : OpenOp) : Ciclo :=
  { id := db.nextCicloId, nombre := op.nombre, trimestre := op.trimestre,
    anio := op.anio, fecha_inicio := op.fecha_inicio, fecha_cierre := none,
    observaciones := op.observaciones, activo := true, empresa_id := op.empresa_id }

def nuevoCiclo (db : DB) (op : OpenOp) : DB × OpenResult :=
  if optTruthy op.empresa_id then
    ({ db with
        ciclos := db.ciclos.map (deactivaActivos op.empresa_id op.today) ++ [nuevoCicloRow db op],
        nextCicloId := db.nextCicloId + 1 },
     OpenResult.created db.nextCicloId)
  else (db, OpenResult.rejectedNoEmpresa)

/-- `admin_ciclos`, `action='cerrar'` (app.py lines 494-524): look up the
most recent active cycle of the selected company; if found, deactivate it,
stamp its close date, and set `cerrado=TRUE` on every record whose
`ciclo_id` is that cycle; otherwise flash a warning and change nothing. -/
def cerrarCiclo (db : DB) (empresa_sel : Option Nat) (today : String) : DB × CloseResult :=
  if optTruthy empresa_sel then
    match maxById (db.ciclos.filter (fun c => c.activo && c.empresa_id == empresa_sel)) with
    | some a =>
      ({ db with
          ciclos := db.ciclos.map (cierraPorId a.id today),
          mantenimiento := db.mantenimiento.map (cierraRegistroDe a.id) },
       CloseResult.closed a.id)
    | none => (db, CloseResult.noActive)
  else (db, CloseResult.rejectedNoEmpresa)

/-- `SELECT * FROM ciclos WHERE id=%s` + `fetchone`. -/
def findCiclo (db : DB) (cid : Nat) : Option Ciclo :=
  db.ciclos.find? (fun c => c.id == cid)

/-- `SELECT ... FROM mantenimiento WHERE id=%s` + `fetchone`. -/
def findMant (db : DB) (rid : Nat) : Option Mantenimiento :=
  db.mantenimiento.find? (fun m => m.id == rid)

/-- The editability guard that `actualizar_registro` (lines 905-923) and
`eliminar` (lines 948-966) both inline: a closed record is never
editable; a record with a truthy `ciclo_id` is editable only if that
cycle exists and is active; a record with no cycle is editable. -/
def is_editable (db : DB) (m : Mantenimiento) : Bool :=
  if m.cerrado then false
  else if optTruthy m.ciclo_id then
    match findCiclo db (m.ciclo_id.getD 0) with
    | none => false
    | some c => c.activo
  else true

/-- The sixteen form fields read by `actualizar_registro`
(`request.form.get(campo, '')`): `none` models an absent form field. -/
structure UpdateForm where
  sede : Option String
  fecha : Option String
  area : Option String
  nombre_maquina : Option String
  usuario_equipo : Option String
  tipo_equipo : Option String
  marca : Option String
  modelo : Option String
  serial : Option String
  so : Option String
  office : Option String
  antivirus : Option String
  compresor : Option String
  control_remoto : Option String
  activo_fijo : Option String
  observaciones : Option String
deriving DecidableEq

/-- The SET clause of the UPDATE in `actualizar_registro` (lines
932-936): exactly sixteen columns overwritten from the form (absent form
fields become `''`); `id`, `tecnico`, `cerrado`, `ciclo_id`,
`empresa_id` are not in the SET list. Form field `usuario_equipo` maps
to column `usuario` and `so` to `sistema_operativo`. -/
def updRow (m : Mantenimiento) (f : UpdateForm) : Mantenimiento :=
  { m with
    sede := f.sede.getD "", fecha := f.fecha.getD "", area := f.area.getD "",
    nombre_maquina := f.nombre_maquina.getD "", usuario := f.usuario_equipo.getD "",
    tipo_equipo := f.tipo_equipo.getD "", marca := f.marca.getD "",
    modelo := f.modelo.getD "", serial := f.serial.getD "",
    sistema_operativo := f.so.getD "", office := f.office.getD "",
    antivirus := f.antivirus.getD "", compresor := f.compresor.getD "",
    control_remoto := f.control_remoto.getD "", activo_fijo := f.activo_fijo.getD "",
    observaciones := f.observaciones.getD "" }

/-- `UPDATE mantenimiento SET ... WHERE id=%s`. -/
def applyUpdate (db : DB) (rid : Nat) (f : UpdateForm) : DB :=
  { db with mantenimiento := db.mantenimiento.map (fun m =>
      if m.id == rid then updRow m f else m) }

/-- `DELETE FROM mantenimiento WHERE id=%s`. -/
def applyDelete (db : DB) (rid : Nat) : DB :=
  { db with mantenimiento := db.mantenimiento.filter (fun m => !(m.id == rid)) }

/-- Route `/actualizar/<rid>` (app.py lines 900-941). -/
def actualizar_registro (db : DB) (rid : Nat) (f : UpdateForm) : DB × UpdateResult :=
  match findMant db rid with
  | none => (db, UpdateResult.notFound)
  | some row =>
    if row.cerrado then (db, UpdateResult.locked)
    else if optTruthy row.ciclo_id then
      match findCiclo db (row.ciclo_id.getD 0) with
      | none => (db, UpdateResult.locked)
      | some ciclo =>
        if ciclo.activo then (applyUpdate db rid f, UpdateResult.updated)
        else (db, UpdateResult.locked)
    else (applyUpdate db rid f, UpdateResult.updated)

/-- Route `/eliminar/<rid>` (app.py lines 943-972); identical guard
sequence, then the DELETE. -/
def eliminar (db : DB) (rid : Nat) : DB × DeleteResult :=
  match findMant db rid with
  | none => (db, DeleteResult.notFound)
  | some row =>
    if row.cerrado then (db, DeleteResult.locked)
    else if optTruthy row.ciclo_id then
      match findCiclo db (row.ciclo_id.getD 0) with
      | none => (db, DeleteResult.locked)
      | some ciclo =>
        if ciclo.activo then (applyDelete db rid, DeleteResult.deleted)
        else (db, DeleteResult.locked)
    else (applyDelete db rid, DeleteResult.deleted)

/-- Raw form values of the save-record action in `principal` (lines
613-630), after the `request.form.get(..., default)` resolution. -/
structure SaveForm where
  sede : String
  fecha : String
  area : String
  nombre_maquina : String
  usuario_equipo : String
  tipo_equipo : String
  marca : String
  modelo : String
  serial : String
  so : String
  office : String
  antivirus : String
  compresor : String
  control_remoto : String
  activo_fijo : String
  observaciones : String
deriving DecidableEq

/-- `principal`, `action='guardar'` (app.py lines 607-638): refuse when
`get_active_cycle` for the session company returns the none sentinel
(flash "No hay un ciclo activo."); otherwise INSERT the record attached
to that active cycle and the session company. -/
def guardar_mantenimiento (db : DB) (empresa_id_session : Option Nat)
    (nombre_session : String) (f : SaveForm) : DB × SaveResult :=
  match get_active_cycle db empresa_id_session with
  | none => (db, SaveResult.noActiveCycle)
  | some ciclo_activo =>
    let nuevo : Mantenimiento :=
      { id := db.nextMantId,
        sede := f.sede, fecha := f.fecha, area := f.area, tecnico := nombre_session,
        nombre_maquina := f.nombre_maquina.toUpper, usuario := f.usuario_equipo,
        tipo_equipo := f.tipo_equipo, marca := f.marca.toUpper,
        modelo := f.modelo.toUpper, serial := f.serial.toUpper,
        sistema_operativo := f.so, office := f.office, antivirus := f.antivirus,
        compresor := f.compresor, control_remoto := f.control_remoto,
        activo_fijo := f.activo_fijo, observaciones := f.observaciones,
        cerrado := false, ciclo_id := some ciclo_activo.id,
        empresa_id := empresa_id_session }
    ({ db with mantenimiento := db.mantenimiento ++ [nuevo],
               nextMantId := db.nextMantId + 1 },
     SaveResult.saved db.nextMantId)

/-- All suffixes of a character list, longest first (the empty suffix
included). -/
def suffixes : List Char → List (List Char)
  | [] => [[]]
  | c :: t => (c :: t) :: suffixes t

/-- Case-insensitive character comparison (ASCII case folding, as
PostgreSQL ILIKE performs on ASCII data). -/
def charEqI (c d : Char) : Bool := c.toLower == d.toLower

/-- SQL LIKE/ILIKE pattern matching of a whole string: the pattern
wildcard `%` matches any run of characters, `_` matches any single
character, and every other pattern character must match
case-insensitively.  PostgreSQL's backslash ESCAPE syntax is not
modelled; the patterns `consultar` builds contain an escape character
only when the user's search text itself does. -/
def likeMatch : List Char → List Char → Bool
  | [], s => s.isEmpty
  | c :: ps, s =>
    if c = '%' then (suffixes s).any (fun t => likeMatch ps t)
    else
      match s with
      | [] => false
      | d :: t => (c == '_' || charEqI c d) && likeMatch ps t

/-- `column ILIKE pattern`. `consultar` passes the user's search text
embedded unescaped between two percent signs (app.py line 838), so SQL
wildcards inside the search text stay live. -/
def ilike (hay pat : String) : Bool :=
  likeMatch pat.data hay.data

/-- Substring test on character lists (structural helper). -/
def isSubstr : List Char → List Char → Bool
  | n, [] => n.isEmpty
  | n, c :: t => n.isPrefixOf (c :: t) || isSubstr n t

/-- Case-insensitive substring occurrence: the spec's reading of the
free-text match ("case-insensitive substring"), used to state when a
token occurs in a field. -/
def containsCI (hay needle : String) : Bool :=
  isSubstr (needle.data.map Char.toLower) (hay.data.map Char.toLower)

/-- Case-insensitive prefix on raw character lists. -/
def isPrefixCI : List Char → List Char → Bool
  | [], _ => true
  | _ :: _, [] => false
  | c :: n, d :: t => charEqI c d && isPrefixCI n t

/-- The ten-field OR of the free-text filter in `consultar` (app.py
lines 837-844), each column tested with `ILIKE` against the pattern
built at line 838 from the raw search text. -/
def matchesSearch (tok : String) (m : Mantenimiento) : Bool :=
  ilike m.sede ("%" ++ tok ++ "%") || ilike m.area ("%" ++ tok ++ "%") ||
  ilike m.tecnico ("%" ++ tok ++ "%") || ilike m.nombre_maquina ("%" ++ tok ++ "%") ||
  ilike m.usuario ("%" ++ tok ++ "%") || ilike m.tipo_equipo ("%" ++ tok ++ "%") ||
  ilike m.marca ("%" ++ tok ++ "%") || ilike m.modelo ("%" ++ tok ++ "%") ||
  ilike m.serial ("%" ++ tok ++ "%") || ilike m.observaciones ("%" ++ tok ++ "%")

/-- The WHERE clause built by `consultar` (app.py lines 830-848):
session-company scope when truthy, free-text filter when the (stripped)
search string is non-empty, exact site filter unless the sentinel
"Todas". -/
def consultarPred (empresa_id_session : Option Nat) (search sede_filter : String)
    (m : Mantenimiento) : Bool :=
  (if optTruthy empresa_id_session then m.empresa_id == empresa_id_session else true)
  && (if search ≠ "" then matchesSearch search m else true)
  && (if sede_filter ≠ "" ∧ sede_filter ≠ "Todas" then m.sede == sede_filter else true)

/-- The full (unpaginated) result set of `consultar`; its length is the
COUNT(*) of the subquery (app.py lines 850-852). -/
def consultarFiltered (db : DB) (empresa_id_session : Option Nat)
    (search sede_filter : String) : List Mantenimiento :=
  db.mantenimiento.filter (consultarPred empresa_id_session search sede_filter)

/-- Total count reported by `consultar` for pagination. -/
def consultarTotal (db : DB) (empresa_id_session : Option Nat)
    (search sede_filter : String) : Nat :=
  (consultarFiltered db empresa_id_session search sede_filter).length

/-- Insertion step of the `ORDER BY fecha ASC` sort (stable). -/
def insertFecha (m : Mantenimiento) : List Mantenimiento → List Mantenimiento
  | [] => [m]
  | x :: t => if m.fecha ≤ x.fecha then m :: x :: t else x :: insertFecha m t

/-- `ORDER BY fecha ASC` realised as a stable insertion sort (SQL leaves
the order of rows with equal dates unspecified; this picks the stable
one). -/
def sortFecha : List Mantenimiento → List Mantenimiento
  | [] => []
  | x :: t => insertFecha x (sortFecha t)

/-- One page of `consultar` output: `ORDER BY fecha ASC LIMIT 20 OFFSET
(page-1)*20`. -/
def consultarPage (db : DB) (empresa_id_session : Option Nat)
    (search sede_filter : String) (page : Nat) : List Mantenimiento :=
  ((sortFecha (consultarFiltered db empresa_id_session search sede_filter)).drop
    ((page - 1) * 20)).take 20

/-- Cycle-scope resolution of `principal` (app.py lines 590-604 and
642): an explicitly selected cycle wins if it exists and is not filtered
out by the session-company check; otherwise fall back to the session
company's active cycle (or the global one when no company is in
session). -/
def ciclo_para_consultar (db : DB) (empresa_id_session : Option Nat)
    (ciclo_id_param : Option Nat) : Option Ciclo :=
  let ciclo_activo := get_active_cycle db empresa_id_session
  let sel : Option Ciclo :=
    if optTruthy ciclo_id_param then
      match findCiclo db (ciclo_id_param.getD 0) with
      | some c =>
        if optTruthy empresa_id_session && !(c.empresa_id == empresa_id_session) then none
        else some c
      | none => none
    else none
  match sel with
  | some c => some c
  | none => ciclo_activo

/-- Total record count of the `principal` dashboard (app.py lines
658-661, 704-705, 748-749): counted by cycle when a cycle is resolved,
else by session company, else globally. -/
def totalPrincipal (db : DB) (empresa_id_session : Option Nat)
    (ciclo_id_param : Option Nat) : Nat :=
  match ciclo_para_consultar db empresa_id_session ciclo_id_param with
  | some c => (db.mantenimiento.filter (fun m => m.ciclo_id == some c.id)).length
  | none =>
    if optTruthy empresa_id_session then
      (db.mantenimiento.filter (fun m => m.empresa_id == empresa_id_session)).length
    else db.mantenimiento.length

/-- A cycle counted as "active for company `e`". -/
def isActFor (e : Nat) (c : Ciclo) : Bool := c.activo && c.empresa_id == some e

/-- Number of active cycles of company `e`. -/
def activeCountFor (db : DB) (e : Nat) : Nat :=
  (db.ciclos.filter (isActFor e)).length

/-- The single-active-cycle-per-company invariant. -/
def OneActivePerCompany (db : DB) : Prop :=
  ∀ e : Nat, activeCountFor db e ≤ 1

/-- A sequence of create-new-cycle requests, applied left to right. -/
def applyOpens (db : DB) (ops : List OpenOp) : DB :=
  ops.foldl (fun d op => (nuevoCiclo d op).1) db

/-- The spec's editability predicate, written from its words: editable
iff not closed and (no cycle reference, or the referenced cycle exists
and is active).  Compared against the code-derived `is_editable`. -/
def EditableSpec (db : DB) (m : Mantenimiento) : Prop :=
  m.cerrado = false ∧
    (m.ciclo_id = none ∨
      ∃ cid c, m.ciclo_id = some cid ∧ findCiclo db cid = some c ∧ c.activo = true)

/-! ### Concrete sample data used by witnesses and counterexamples -/

/-- A cycle row with representative label fields. -/
def mkCiclo (i : Nat) (act : Bool) (eid : Option Nat) : Ciclo :=
  { id := i, nombre := "Ciclo", trimestre := "1", anio := "2025",
    fecha_inicio := "2025-01-01", fecha_cierre := none, observaciones := "",
    activo := act, empresa_id := eid }

/-- A maintenance record with representative equipment fields. -/
def mkMant (i : Nat) (cid eid : Option Nat) (cer : Bool) (obs : String) : Mantenimiento :=
  { id := i, sede := "Barranquilla", fecha := "2025-02-03", area := "TI",
    tecnico := "Ana", nombre_maquina := "PC01", usuario := "usr",
    tipo_equipo := "Laptop", marca := "HP", modelo := "G5", serial := "SN01",
    sistema_operativo := "W11", office := "365", antivirus := "Def",
    compresor := "No", control_remoto := "No", activo_fijo := "AF01",
    observaciones := obs, cerrado := cer, ciclo_id := cid, empresa_id := eid }

def dbEmpty : DB :=
  { ciclos := [], mantenimiento := [], nextCicloId := 1, nextMantId := 1 }

def opW1 : OpenOp :=
  { empresa_id := some 1, today := "2025-01-02", nombre := "Q1", trimestre := "1",
    anio := "2025", fecha_inicio := "2025-01-01", observaciones := "" }

def opW2 : OpenOp :=
  { empresa_id := some 1, today := "2025-04-02", nombre := "Q2", trimestre := "2",
    anio := "2025", fecha_inicio := "2025-04-01", observaciones := "" }

/-- One company with one active cycle and one open record in it. -/
def dbOneActive : DB :=
  { ciclos := [mkCiclo 1 true (some 1)],
    mantenimiento := [mkMant 1 (some 1) (some 1) false "ok"],
    nextCicloId := 2, nextMantId := 2 }

/-- One company, active cycle 1, one record in the cycle and one legacy
record without a cycle. -/
def dbTwoRecords : DB :=
  { ciclos := [mkCiclo 1 true (some 1)],
    mantenimiento := [mkMant 1 (some 1) (some 1) false "a",
                      mkMant 2 none (some 1) false "b"],
    nextCicloId := 2, nextMantId := 3 }

/-- One company whose only cycle is already closed, with a locked record. -/
def dbClosedCycle : DB :=
  { ciclos := [mkCiclo 1 false (some 1)],
    mantenimiento := [mkMant 1 (some 1) (some 1) true "x"],
    nextCicloId := 2, nextMantId := 2 }

/-- A single legacy record with no cycle, editable. -/
def dbNoCycleRecord : DB :=
  { ciclos := [], mantenimiento := [mkMant 1 none none false "hola"],
    nextCicloId := 1, nextMantId := 2 }

/-- Two records; the token "xyzt" occurs only in the observations of the
first. -/
def dbSearch : DB :=
  { ciclos := [],
    mantenimiento := [mkMant 1 none none false "revisar xyzt pronto",
                      mkMant 2 none none false "sin novedades"],
    nextCicloId := 1, nextMantId := 3 }

/-- Two records for the wildcard counterexample: the token "a_b" occurs
as a literal substring only in the observations of the first, but the
SQL wildcard makes the ILIKE pattern match the second as well. -/
def dbWild : DB :=
  { ciclos := [],
    mantenimiento := [mkMant 1 none none false "ver a_b hoy",
                      mkMant 2 none none false "ver aXb hoy"],
    nextCicloId := 1, nextMantId := 3 }

def formW10 : UpdateForm :=
  { sede := some "Soledad", fecha := some "2025-03-01", area := none,
    nombre_maquina := some "PC99", usuario_equipo := none, tipo_equipo := none,
    marca := none, modelo := none, serial := none, so := some "W10",
    office := none, antivirus := none, compresor := none, control_remoto := none,
    activo_fijo := none, observaciones := some "upd" }

def formUAll : UpdateForm :=
  { sede := none, fecha := none, area := none, nombre_maquina := none,
    usuario_equipo := none, tipo_equipo := none, marca := none, modelo := none,
    serial := none, so := none, office := none, antivirus := none,
    compresor := none, control_remoto := none, activo_fijo := none,
    observaciones := none }

def formSave : SaveForm :=
  { sede := "Soledad", fecha := "2025-03-01", area := "TI",
    nombre_maquina := "pc", usuario_equipo := "u", tipo_equipo := "Desktop",
    marca := "dell", modelo := "x", serial := "s", so := "W10", office := "365",
    antivirus := "AV", compresor := "", control_remoto := "", activo_fijo := "",
    observaciones := "" }

/-! ### Helper lemmas about the embedded query primitives -/

theorem findP_cons_pos {α : Type} (p : α → Bool) {a : α} (l : List α) (h : p a = true) :
    (a :: l).find? p = some a :=
  List.find?_cons_of_pos l h

theorem findP_cons_neg {α : Type} (p : α → Bool) {a : α} (l : List α) (h : p a = false) :
    (a :: l).find? p = l.find? p :=
  List.find?_cons_of_neg l (by simp [h])

theorem maxById_eq_none {l : List Ciclo} : maxById l = none ↔ l = [] := by
  cases l with
  | nil => simp [maxById]
  | cons c t =>
    simp only [maxById]
    constructor
    · intro h
      exfalso
      split at h
      · exact Option.noConfusion h
      · split at h <;> exact Option.noConfusion h
    · intro h
      exact absurd h (List.cons_ne_nil c t)

theorem maxById_mem {l : List Ciclo} {c : Ciclo} (h : maxById l = some c) : c ∈ l := by
  induction l with
  | nil => simp [maxById] at h
  | cons a t ih =>
    simp only [maxById] at h
    split at h
    next =>
      obtain rfl : a = c := by simpa using h
      exact List.mem_cons_self _ _
    next m heq =>
      split at h
      next =>
        obtain rfl : m = c := by simpa using h
        exact List.mem_cons_of_mem _ (ih heq)
      next =>
        obtain rfl : a = c := by simpa using h
        exact List.mem_cons_self _ _

theorem maxById_le {l : List Ciclo} {c : Ciclo} (h : maxById l = some c) :
    ∀ x ∈ l, x.id ≤ c.id := by
  induction l generalizing c with
  | nil => simp [maxById] at h
  | cons a t ih =>
    intro x hx
    simp only [maxById] at h
    split at h
    next heq =>
      obtain rfl : a = c := by simpa using h
      rcases List.mem_cons.mp hx with rfl | hxt
      · exact le_refl _
      · exact absurd (maxById_eq_none.mp heq ▸ hxt) (List.not_mem_nil x)
    next m heq =>
      split at h
      next hgt =>
        obtain rfl : m = c := by simpa using h
        rcases List.mem_cons.mp hx with rfl | hxt
        · exact le_of_lt hgt
        · exact ih heq x hxt
      next hgt =>
        obtain rfl : a = c := by simpa using h
        rcases List.mem_cons.mp hx with rfl | hxt
        · exact le_refl _
        · exact le_trans (ih heq x hxt) (Nat.le_of_not_lt hgt)

theorem find?_append_some {α : Type} {p : α → Bool} {l₁ l₂ : List α} {x : α}
    (h : l₁.find? p = some x) : (l₁ ++ l₂).find? p = some x := by
  induction l₁ with
  | nil => simp [List.find?] at h
  | cons a t ih =>
    cases hp : p a with
    | true =>
      rw [findP_cons_pos p t hp] at h
      rw [List.cons_append, findP_cons_pos p (t ++ l₂) hp]
      exact h
    | false =>
      rw [findP_cons_neg p t hp] at h
      rw [List.cons_append, findP_cons_neg p (t ++ l₂) hp]
      exact ih h

theorem find?_map_of_id (g : Ciclo → Ciclo) (hg : ∀ c, (g c).id = c.id) (cid : Nat)
    (l : List Ciclo) :
    (l.map g).find? (fun c => c.id == cid) = (l.find? (fun c => c.id == cid)).map g := by
  induction l with
  | nil => rfl
  | cons a t ih =>
    cases hp : (a.id == cid) with
    | true =>
      have hp' : ((fun c : Ciclo => c.id == cid) (g a)) = true := by
        simp only [hg]; exact hp
      rw [List.map_cons, findP_cons_pos (fun c => c.id == cid) (t.map g) hp',
        findP_cons_pos (fun c => c.id == cid) t hp]
      rfl
    | false =>
      have hp' : ((fun c : Ciclo => c.id == cid) (g a)) = false := by
        simp only [hg]; exact hp
      rw [List.map_cons, findP_cons_neg (fun c => c.id == cid) (t.map g) hp',
        findP_cons_neg (fun c => c.id == cid) t hp]
      exact ih

theorem find?_id_of_nodup {l : List Ciclo} (hl : (l.map Ciclo.id).Nodup)
    {c : Ciclo} (hc : c ∈ l) :
    l.find? (fun x => x.id == c.id) = some c := by
  induction l with
  | nil => cases hc
  | cons a t ih =>
    rw [List.map_cons, List.nodup_cons] at hl
    rcases List.mem_cons.mp hc with rfl | hmem
    · exact findP_cons_pos _ t (by simp)
    · have hne : ((fun x : Ciclo => x.id == c.id) a) = false := by
        simp only [beq_eq_false_iff_ne, ne_eq]
        intro heq
        exact hl.1 (heq ▸ List.mem_map_of_mem Ciclo.id hmem)
      rw [findP_cons_neg _ t hne]
      exact ih hl.2 hmem

theorem nuevoCiclo_pos (db : DB) (op : OpenOp) (ht : optTruthy op.empresa_id = true) :
    nuevoCiclo db op =
      ({ db with
          ciclos := db.ciclos.map (deactivaActivos op.empresa_id op.today) ++ [nuevoCicloRow db op],
          nextCicloId := db.nextCicloId + 1 },
       OpenResult.created db.nextCicloId) := by
  simp [nuevoCiclo, ht]

theorem nuevoCiclo_neg (db : DB) (op : OpenOp) (ht : optTruthy op.empresa_id = false) :
    nuevoCiclo db op = (db, OpenResult.rejectedNoEmpresa) := by
  simp [nuevoCiclo, ht]

theorem isActFor_deactiva (e : Nat) (eSel : Option Nat) (today : String) (c : Ciclo) :
    isActFor e (deactivaActivos eSel today c) = (isActFor e c && !(some e == eSel)) := by
  by_cases hA : (c.activo && c.empresa_id == eSel) = true
  · have h1 : deactivaActivos eSel today c
        = { c with activo := false, fecha_cierre := some today } := by
      simp [deactivaActivos, hA]
    rw [h1]
    have h2 : isActFor e { c with activo := false, fecha_cierre := some today } = false := by
      simp [isActFor]
    rw [h2]
    obtain ⟨hc1, hc2⟩ : c.activo = true ∧ c.empresa_id = eSel := by simpa using hA
    by_cases he : some e = eSel
    · simp [he]
    · have h3 : isActFor e c = false := by
        simp only [isActFor, hc1, hc2, Bool.true_and]
        exact beq_eq_false_iff_ne.mpr (fun hc => he hc.symm)
      simp [h3]
  · have h1 : deactivaActivos eSel today c = c := by simp [deactivaActivos, hA]
    rw [h1]
    cases hb : isActFor e c with
    | false => simp
    | true =>
      obtain ⟨hc1, hc2⟩ : c.activo = true ∧ c.empresa_id = some e := by
        simpa [isActFor] using hb
      have hne : ¬ (some e = eSel) := by
        intro he
        exact hA (by simp [hc1, hc2, ← he])
      simp [hne]

theorem filter_isActFor_map_deactiva (l : List Ciclo) (eSel : Option Nat) (today : String)
    (e : Nat) :
    ((l.map (deactivaActivos eSel today)).filter (isActFor e)).length
      = if some e = eSel then 0 else (l.filter (isActFor e)).length := by
  induction l with
  | nil => simp
  | cons a t ih =>
    simp only [List.map_cons, List.filter_cons, isActFor_deactiva]
    by_cases he : some e = eSel
    · subst he
      have ih' : ((t.map (deactivaActivos (some e) today)).filter (isActFor e)).length = 0 := by
        simpa using ih
      simpa using ih'
    · have hbe : (some e == eSel) = false := beq_eq_false_iff_ne.mpr he
      rw [if_neg he] at ih ⊢
      cases hb : isActFor e a with
      | true => simp [hb, hbe, ih]
      | false => simp [hb, hbe, ih]

theorem filter_isActFor_map_cierra (l : List Ciclo) (cid : Nat) (today : String) (e : Nat)
    (h : ∀ c ∈ l, isActFor e c = true → c.id = cid) :
    (l.map (cierraPorId cid today)).filter (isActFor e) = [] := by
  induction l with
  | nil => rfl
  | cons a t ih =>
    have hx : isActFor e (cierraPorId cid today a) = false := by
      by_cases ha : a.id = cid
      · simp [cierraPorId, ha, isActFor]
      · have h1 : cierraPorId cid today a = a := by simp [cierraPorId, ha]
        rw [h1]
        cases hb : isActFor e a with
        | false => rfl
        | true => exact absurd (h a (List.mem_cons_self a t) hb) ha
    simp only [List.map_cons, List.filter_cons, hx]
    simpa using ih (fun c hc => h c (List.mem_cons_of_mem a hc))

theorem nuevoCiclo_activeCount (db : DB) (op : OpenOp) (e : Nat) :
    activeCountFor (nuevoCiclo db op).1 e =
      if optTruthy op.empresa_id then
        (if some e = op.empresa_id then 1 else activeCountFor db e)
      else activeCountFor db e := by
  cases ht : optTruthy op.empresa_id with
  | false =>
    rw [nuevoCiclo_neg db op ht]
    simp [ht]
  | true =>
    rw [nuevoCiclo_pos db op ht]
    simp only [activeCountFor, List.filter_append, List.length_append,
      filter_isActFor_map_deactiva, ht, if_true]
    by_cases he : some e = op.empresa_id
    · have hrow : isActFor e (nuevoCicloRow db op) = true := by
        simp [isActFor, nuevoCicloRow, ← he]
      simp [he, hrow]
    · have hrow : isActFor e (nuevoCicloRow db op) = false := by
        simp only [isActFor, nuevoCicloRow, Bool.true_and]
        exact beq_eq_false_iff_ne.mpr (fun hc => he hc.symm)
      simp [he, hrow]

theorem nuevoCiclo_preserves (db : DB) (op : OpenOp) (h : OneActivePerCompany db) :
    OneActivePerCompany (nuevoCiclo db op).1 := by
  intro e
  rw [nuevoCiclo_activeCount]
  by_cases ht : optTruthy op.empresa_id = true
  · rw [if_pos ht]
    by_cases he : some e = op.empresa_id
    · rw [if_pos he]
    · rw [if_neg he]; exact h e
  · rw [if_neg ht]; exact h e

theorem applyOpens_preserves (ops : List OpenOp) (db : DB) (h : OneActivePerCompany db) :
    OneActivePerCompany (applyOpens db ops) := by
  induction ops generalizing db with
  | nil => exact h
  | cons op t ih =>
    exact ih (nuevoCiclo db op).1 (nuevoCiclo_preserves db op h)

theorem deactivaActivos_id (eSel : Option Nat) (today : String) (c : Ciclo) :
    (deactivaActivos eSel today c).id = c.id := by
  unfold deactivaActivos
  split <;> rfl

theorem cierraPorId_id (cid : Nat) (today : String) (c : Ciclo) :
    (cierraPorId cid today c).id = c.id := by
  unfold cierraPorId
  split <;> rfl

theorem optTruthy_some {e : Nat} (he : e ≠ 0) : optTruthy (some e) = true := by
  simp [optTruthy, he]

theorem cerrarCiclo_closed_eq (db : DB) (eSel : Option Nat) (today : String) (a : Ciclo)
    (ht : optTruthy eSel = true)
    (hm : maxById (db.ciclos.filter (fun c => c.activo && c.empresa_id == eSel)) = some a) :
    cerrarCiclo db eSel today =
      ({ db with
          ciclos := db.ciclos.map (cierraPorId a.id today),
          mantenimiento := db.mantenimiento.map (cierraRegistroDe a.id) },
       CloseResult.closed a.id) := by
  simp [cerrarCiclo, ht, hm]

theorem cerrarCiclo_none_eq (db : DB) (eSel : Option Nat) (today : String)
    (ht : optTruthy eSel = true)
    (hm : maxById (db.ciclos.filter (fun c => c.activo && c.empresa_id == eSel)) = none) :
    cerrarCiclo db eSel today = (db, CloseResult.noActive) := by
  simp [cerrarCiclo, ht, hm]

theorem get_active_cycle_pos (db : DB) (eo : Option Nat) (ht : optTruthy eo = true) :
    get_active_cycle db eo
      = maxById (db.ciclos.filter (fun c => c.activo && c.empresa_id == eo)) := by
  simp [get_active_cycle, ht]

theorem get_active_cycle_neg (db : DB) (eo : Option Nat) (ht : optTruthy eo = false) :
    get_active_cycle db eo = maxById (db.ciclos.filter (fun c => c.activo)) := by
  simp [get_active_cycle, ht]

theorem actualizar_of_locked {db : DB} {rid : Nat} {r : Mantenimiento} (f : UpdateForm)
    (hf : findMant db rid = some r) (he : is_editable db r = false) :
    actualizar_registro db rid f = (db, UpdateResult.locked) := by
  cases hcer : r.cerrado with
  | true => simp [actualizar_registro, hf, hcer]
  | false =>
    cases htr : optTruthy r.ciclo_id with
    | false => simp [is_editable, hcer, htr] at he
    | true =>
      cases hfc : findCiclo db (r.ciclo_id.getD 0) with
      | none => simp [actualizar_registro, hf, hcer, htr, hfc]
      | some c =>
        cases hca : c.activo with
        | false => simp [actualizar_registro, hf, hcer, htr, hfc, hca]
        | true => simp [is_editable, hcer, htr, hfc, hca] at he

theorem actualizar_of_editable {db : DB} {rid : Nat} {r : Mantenimiento} (f : UpdateForm)
    (hf : findMant db rid = some r) (he : is_editable db r = true) :
    actualizar_registro db rid f = (applyUpdate db rid f, UpdateResult.updated) := by
  cases hcer : r.cerrado with
  | true => simp [is_editable, hcer] at he
  | false =>
    cases htr : optTruthy r.ciclo_id with
    | false => simp [actualizar_registro, hf, hcer, htr]
    | true =>
      cases hfc : findCiclo db (r.ciclo_id.getD 0) with
      | none => simp [is_editable, hcer, htr, hfc] at he
      | some c =>
        cases hca : c.activo with
        | false => simp [is_editable, hcer, htr, hfc, hca] at he
        | true => simp [actualizar_registro, hf, hcer, htr, hfc, hca]

theorem eliminar_of_locked {db : DB} {rid : Nat} {r : Mantenimiento}
    (hf : findMant db rid = some r) (he : is_editable db r = false) :
    eliminar db rid = (db, DeleteResult.locked) := by
  cases hcer : r.cerrado with
  | true => simp [eliminar, hf, hcer]
  | false =>
    cases htr : optTruthy r.ciclo_id with
    | false => simp [is_editable, hcer, htr] at he
    | true =>
      cases hfc : findCiclo db (r.ciclo_id.getD 0) with
      | none => simp [eliminar, hf, hcer, htr, hfc]
      | some c =>
        cases hca : c.activo with
        | false => simp [eliminar, hf, hcer, htr, hfc, hca]
        | true => simp [is_editable, hcer, htr, hfc, hca] at he

theorem eliminar_of_editable {db : DB} {rid : Nat} {r : Mantenimiento}
    (hf : findMant db rid = some r) (he : is_editable db r = true) :
    eliminar db rid = (applyDelete db rid, DeleteResult.deleted) := by
  cases hcer : r.cerrado with
  | true => simp [is_editable, hcer] at he
  | false =>
    cases htr : optTruthy r.ciclo_id with
    | false => simp [eliminar, hf, hcer, htr]
    | true =>
      cases hfc : findCiclo db (r.ciclo_id.getD 0) with
      | none => simp [is_editable, hcer, htr, hfc] at he
      | some c =>
        cases hca : c.activo with
        | false => simp [is_editable, hcer, htr, hfc, hca] at he
        | true => simp [eliminar, hf, hcer, htr, hfc, hca]

theorem actualizar_updated_iff (db : DB) (rid : Nat) (f : UpdateForm) :
    (actualizar_registro db rid f).2 = UpdateResult.updated ↔
      ∃ r, findMant db rid = some r ∧ is_editable db r = true := by
  cases hf : findMant db rid with
  | none => simp [actualizar_registro, hf]
  | some r =>
    cases he : is_editable db r with
    | true =>
      rw [actualizar_of_editable f hf he]
      simp [hf, he]
    | false =>
      rw [actualizar_of_locked f hf he]
      simp [hf, he]

theorem eliminar_deleted_iff (db : DB) (rid : Nat) :
    (eliminar db rid).2 = DeleteResult.deleted ↔
      ∃ r, findMant db rid = some r ∧ is_editable db r = true := by
  cases hf : findMant db rid with
  | none => simp [eliminar, hf]
  | some r =>
    cases he : is_editable db r with
    | true =>
      rw [eliminar_of_editable hf he]
      simp [hf, he]
    | false =>
      rw [eliminar_of_locked hf he]
      simp [hf, he]

theorem is_editable_iff_spec (db : DB) (m : Mantenimiento) (h0 : m.ciclo_id ≠ some 0) :
    is_editable db m = true ↔ EditableSpec db m := by
  cases hcer : m.cerrado with
  | true => simp [is_editable, EditableSpec, hcer]
  | false =>
    cases hcid : m.ciclo_id with
    | none => simp [is_editable, EditableSpec, hcer, hcid, optTruthy]
    | some cid =>
      have hc0 : cid ≠ 0 := by
        intro h
        exact h0 (by rw [hcid, h])
      cases hfc : findCiclo db cid with
      | none =>
        simp [is_editable, EditableSpec, hcer, hcid, optTruthy_some hc0, hfc]
      | some c =>
        cases hca : c.activo with
        | false =>
          simp [is_editable, EditableSpec, hcer, hcid, optTruthy_some hc0, hfc, hca]
        | true =>
          simp [is_editable, EditableSpec, hcer, hcid, optTruthy_some hc0, hfc, hca]

theorem applyUpdate_mant (db : DB) (rid : Nat) (f : UpdateForm) :
    (applyUpdate db rid f).mantenimiento
      = db.mantenimiento.map (fun m => if m.id = rid then updRow m f else m) := by
  have h : (fun m : Mantenimiento => if m.id == rid then updRow m f else m)
      = (fun m : Mantenimiento => if m.id = rid then updRow m f else m) := by
    funext m
    by_cases hm : m.id = rid
    · simp [hm]
    · simp [hm]
  simp only [applyUpdate, h]

/-- C2: a record is editable exactly when it is not closed and its cycle
reference is absent or points to an existing active cycle (the side
condition `ciclo_id ≠ some 0` holds for every real row: cycle ids are
SERIAL and start at 1, and the code's Python truthiness test treats a
zero id like NULL); the same predicate gates both the update and the
delete route: they mutate the store exactly when the targeted record
exists and is editable. -/
theorem c2_editable_iff (db : DB) (m : Mantenimiento) (h0 : m.ciclo_id ≠ some 0) :
    (is_editable db m = true ↔ EditableSpec db m)
    ∧ (∀ (rid : Nat) (f : UpdateForm),
        (actualizar_registro db rid f).2 = UpdateResult.updated ↔
          ∃ r, findMant db rid = some r ∧ is_editable db r = true)
    ∧ (∀ rid : Nat,
        (eliminar db rid).2 = DeleteResult.deleted ↔
          ∃ r, findMant db rid = some r ∧ is_editable db r = true) :=
  ⟨is_editable_iff_spec db m h0,
   fun rid f => actualizar_updated_iff db rid f,
   fun rid => eliminar_deleted_iff db rid⟩

/-- C2 witness: the open record of `dbOneActive` sits in the active cycle,
so the equivalence and both gates hold for it concretely. -/
theorem c2_editable_iff_witness :
    (is_editable dbOneActive (mkMant 1 (some 1) (some 1) false "ok") = true ↔
      EditableSpec dbOneActive (mkMant 1 (some 1) (some 1) false "ok"))
    ∧ (∀ (rid : Nat) (f : UpdateForm),
        (actualizar_registro dbOneActive rid f).2 = UpdateResult.updated ↔
          ∃ r, findMant dbOneActive rid = some r ∧ is_editable dbOneActive r = true)
    ∧ (∀ rid : Nat,
        (eliminar dbOneActive rid).2 = DeleteResult.deleted ↔
          ∃ r, findMant dbOneActive rid = some r ∧ is_editable dbOneActive r = true) :=
  c2_editable_iff dbOneActive (mkMant 1 (some 1) (some 1) false "ok") (by decide)

/-- C5: when the targeted record exists but is not editable, both the
update route and the delete route reject with the locked warning (a
non-fatal flash) and return the database completely unchanged: no field
of any record changes and nothing is deleted. -/
theorem c5_locked_reject (db : DB) (rid : Nat) (r : Mantenimiento) (f : UpdateForm)
    (hfound : findMant db rid = some r) (hne : is_editable db r = false) :
    actualizar_registro db rid f = (db, UpdateResult.locked)
    ∧ eliminar db rid = (db, DeleteResult.locked) :=
  ⟨actualizar_of_locked f hfound hne, eliminar_of_locked hfound hne⟩

/-- C5 witness: the record of `dbClosedCycle` is closed, so update and
delete leave the database untouched and report the lock. -/
theorem c5_locked_reject_witness :
    actualizar_registro dbClosedCycle 1 formW10 = (dbClosedCycle, UpdateResult.locked)
    ∧ eliminar dbClosedCycle 1 = (dbClosedCycle, DeleteResult.locked) :=
  c5_locked_reject dbClosedCycle 1 (mkMant 1 (some 1) (some 1) true "x") formW10
    (by decide) (by decide)

/-- C10: a successful update leaves the cycle table alone and rewrites
only the row with the given id through `updRow`, which overwrites exactly
the sixteen submitted equipment fields (absent form fields becoming the
empty string) and preserves `id`, `tecnico`, `ciclo_id`, `empresa_id`
and `cerrado` — an update can never relink or unlock a record. -/
theorem c10_update_frame (db : DB) (rid : Nat) (f : UpdateForm)
    (h : (actualizar_registro db rid f).2 = UpdateResult.updated) :
    (actualizar_registro db rid f).1.ciclos = db.ciclos
    ∧ (actualizar_registro db rid f).1.mantenimiento
        = db.mantenimiento.map (fun m => if m.id = rid then updRow m f else m)
    ∧ (∀ m : Mantenimiento,
        (updRow m f).id = m.id ∧ (updRow m f).tecnico = m.tecnico
        ∧ (updRow m f).ciclo_id = m.ciclo_id ∧ (updRow m f).empresa_id = m.empresa_id
        ∧ (updRow m f).cerrado = m.cerrado
        ∧ (updRow m f).sede = f.sede.getD "" ∧ (updRow m f).fecha = f.fecha.getD ""
        ∧ (updRow m f).area = f.area.getD ""
        ∧ (updRow m f).nombre_maquina = f.nombre_maquina.getD ""
        ∧ (updRow m f).usuario = f.usuario_equipo.getD ""
        ∧ (updRow m f).tipo_equipo = f.tipo_equipo.getD ""
        ∧ (updRow m f).marca = f.marca.getD "" ∧ (updRow m f).modelo = f.modelo.getD ""
        ∧ (updRow m f).serial = f.serial.getD ""
        ∧ (updRow m f).sistema_operativo = f.so.getD ""
        ∧ (updRow m f).office = f.office.getD ""
        ∧ (updRow m f).antivirus = f.antivirus.getD ""
        ∧ (updRow m f).compresor = f.compresor.getD ""
        ∧ (updRow m f).control_remoto = f.control_remoto.getD ""
        ∧ (updRow m f).activo_fijo = f.activo_fijo.getD ""
        ∧ (updRow m f).observaciones = f.observaciones.getD "") := by
  obtain ⟨r, hf, he⟩ := (actualizar_updated_iff db rid f).mp h
  rw [actualizar_of_editable f hf he]
  exact ⟨rfl, applyUpdate_mant db rid f,
    fun m => ⟨rfl, rfl, rfl, rfl, rfl, rfl, rfl, rfl, rfl, rfl, rfl, rfl, rfl, rfl,
      rfl, rfl, rfl, rfl, rfl, rfl, rfl⟩⟩

/-- C10 witness: updating the cycle-less open record of `dbNoCycleRecord`
succeeds, keeps the cycle table, and rewrites row 1 through `updRow`. -/
theorem c10_update_frame_witness :
    (actualizar_registro dbNoCycleRecord 1 formW10).2 = UpdateResult.updated
    ∧ (actualizar_registro dbNoCycleRecord 1 formW10).1.ciclos = dbNoCycleRecord.ciclos
    ∧ (actualizar_registro dbNoCycleRecord 1 formW10).1.mantenimiento
        = dbNoCycleRecord.mantenimiento.map
            (fun m => if m.id = 1 then updRow m formW10 else m) := by
  refine ⟨by decide, ?_, ?_⟩
  · exact (c10_update_frame dbNoCycleRecord 1 formW10 (by decide)).1
  · exact (c10_update_frame dbNoCycleRecord 1 formW10 (by decide)).2.1

/-- C1: a database satisfying the one-active-cycle-per-company invariant
still satisfies it after any sequence of sequential create-cycle
requests (every prefix of the sequence is itself such a sequence, so the
invariant holds at every observation point), because each successful
open first deactivates all active cycles of the selected company and
then inserts the single new active one — indeed after any successful
open for company `e` the active count of `e` is exactly 1. -/
theorem c1_single_active_invariant (db : DB) (hInv : OneActivePerCompany db)
    (ops : List OpenOp) :
    OneActivePerCompany (applyOpens db ops)
    ∧ (∀ (d : DB) (op : OpenOp) (e : Nat), op.empresa_id = some e → e ≠ 0 →
        activeCountFor (nuevoCiclo d op).1 e = 1) := by
  refine ⟨applyOpens_preserves ops db hInv, ?_⟩
  intro d op e hop he
  rw [nuevoCiclo_activeCount]
  simp [hop, optTruthy_some he]

/-- C1 witness: two consecutive opens for company 1 starting from the
empty store keep the invariant. -/
theorem c1_single_active_invariant_witness :
    OneActivePerCompany (applyOpens dbEmpty [opW1, opW2])
    ∧ (∀ (d : DB) (op : OpenOp) (e : Nat), op.empresa_id = some e → e ≠ 0 →
        activeCountFor (nuevoCiclo d op).1 e = 1) :=
  c1_single_active_invariant dbEmpty
    (fun e => by simp [activeCountFor, dbEmpty]) [opW1, opW2]

/-- C4: when the close action actually closes cycle `cid`, the record
table afterwards is exactly the old table with `cerrado := true` on
every record whose `ciclo_id` equals `cid`; every record of another (or
no) cycle is carried over bit-for-bit unchanged. -/
theorem c4_close_sets_cerrado (db : DB) (eSel : Option Nat) (today : String) (cid : Nat)
    (h : (cerrarCiclo db eSel today).2 = CloseResult.closed cid) :
    (cerrarCiclo db eSel today).1.mantenimiento
      = db.mantenimiento.map
          (fun m => if m.ciclo_id = some cid then { m with cerrado := true } else m)
    ∧ (∀ m ∈ db.mantenimiento, m.ciclo_id = some cid →
        { m with cerrado := true } ∈ (cerrarCiclo db eSel today).1.mantenimiento)
    ∧ (∀ m ∈ db.mantenimiento, m.ciclo_id ≠ some cid →
        m ∈ (cerrarCiclo db eSel today).1.mantenimiento) := by
  cases ht : optTruthy eSel with
  | false => simp [cerrarCiclo, ht] at h
  | true =>
    cases hm : maxById (db.ciclos.filter (fun c => c.activo && c.empresa_id == eSel)) with
    | none =>
      rw [cerrarCiclo_none_eq db eSel today ht hm] at h
      simp at h
    | some a =>
      rw [cerrarCiclo_closed_eq db eSel today a ht hm] at h ⊢
      have hcid : a.id = cid := by simpa using h
      subst hcid
      have hfn : cierraRegistroDe a.id
          = (fun m : Mantenimiento =>
              if m.ciclo_id = some a.id then { m with cerrado := true } else m) := by
        funext m
        by_cases hmc : m.ciclo_id = some a.id
        · simp [cierraRegistroDe, hmc]
        · simp [cierraRegistroDe, hmc]
      refine ⟨by rw [hfn], ?_, ?_⟩
      · intro m hm' hmc
        have hrw : cierraRegistroDe a.id m = { m with cerrado := true } := by
          simp [cierraRegistroDe, hmc]
        exact hrw ▸ List.mem_map_of_mem (cierraRegistroDe a.id) hm'
      · intro m hm' hmc
        have hrw : cierraRegistroDe a.id m = m := by
          simp [cierraRegistroDe, hmc]
        exact hrw ▸ List.mem_map_of_mem (cierraRegistroDe a.id) hm'

/-- C4 witness: closing company 1's active cycle in `dbTwoRecords` locks
the cycle-1 record and carries the legacy record over unchanged. -/
theorem c4_close_sets_cerrado_witness :
    (cerrarCiclo dbTwoRecords (some 1) "2025-04-02").2 = CloseResult.closed 1
    ∧ (cerrarCiclo dbTwoRecords (some 1) "2025-04-02").1.mantenimiento
        = dbTwoRecords.mantenimiento.map
            (fun m => if m.ciclo_id = some 1 then { m with cerrado := true } else m) := by
  refine ⟨by decide, ?_⟩
  exact (c4_close_sets_cerrado dbTwoRecords (some 1) "2025-04-02" 1 (by decide)).1

/-- C6 (amended): the close action is keyed by company, not by cycle id.
Under the single-active-cycle invariant a second close for the same
company is always the reported no-op (`noActive` warning) leaving the
state unchanged, and whenever the company has no active cycle — because
it was already closed, or because no such company or cycle exists at
all — the action is that same reported no-op; there is no distinct
not-found failure. -/
theorem c6_close_idempotent (db : DB) (e : Nat) (t1 t2 : String)
    (he : e ≠ 0) (hInv : activeCountFor db e ≤ 1) :
    cerrarCiclo (cerrarCiclo db (some e) t1).1 (some e) t2
      = ((cerrarCiclo db (some e) t1).1, CloseResult.noActive)
    ∧ (db.ciclos.filter (isActFor e) = [] →
        cerrarCiclo db (some e) t1 = (db, CloseResult.noActive)) := by
  have ht := optTruthy_some he
  cases hm : maxById (db.ciclos.filter (fun c => c.activo && c.empresa_id == some e)) with
  | none =>
    have h1 := cerrarCiclo_none_eq db (some e) t1 ht hm
    refine ⟨?_, fun _ => h1⟩
    rw [h1]
    exact cerrarCiclo_none_eq db (some e) t2 ht hm
  | some a =>
    have h1 := cerrarCiclo_closed_eq db (some e) t1 a ht hm
    have hmem : a ∈ db.ciclos.filter (isActFor e) := maxById_mem hm
    have hne : db.ciclos.filter (isActFor e) ≠ [] := by
      intro hnil
      rw [hnil] at hmem
      exact List.not_mem_nil a hmem
    have hlen1 : (db.ciclos.filter (isActFor e)).length = 1 :=
      le_antisymm hInv (List.length_pos.mpr hne)
    obtain ⟨x, hx⟩ := List.length_eq_one.mp hlen1
    have hax : a = x := by
      rw [hx] at hmem
      simpa using hmem
    subst hax
    have hall : ∀ c ∈ db.ciclos, isActFor e c = true → c.id = a.id := by
      intro c hcin hcact
      have hcf : c ∈ db.ciclos.filter (isActFor e) := List.mem_filter.mpr ⟨hcin, hcact⟩
      rw [hx] at hcf
      have hca : c = a := by simpa using hcf
      rw [hca]
    have hempty := filter_isActFor_map_cierra db.ciclos a.id t1 e hall
    refine ⟨?_, ?_⟩
    · rw [h1]
      apply cerrarCiclo_none_eq _ _ _ ht
      show maxById ((db.ciclos.map (cierraPorId a.id t1)).filter (isActFor e)) = none
      rw [hempty]
      rfl
    · intro hfe
      exfalso
      rw [hfe] at hmem
      exact List.not_mem_nil a hmem

/-- C6 witness: closing company 1 twice in `dbTwoRecords` — the second
call is the reported no-op and changes nothing. -/
theorem c6_close_idempotent_witness :
    cerrarCiclo (cerrarCiclo dbTwoRecords (some 1) "d1").1 (some 1) "d2"
      = ((cerrarCiclo dbTwoRecords (some 1) "d1").1, CloseResult.noActive)
    ∧ (dbTwoRecords.ciclos.filter (isActFor 1) = [] →
        cerrarCiclo dbTwoRecords (some 1) "d1" = (dbTwoRecords, CloseResult.noActive)) :=
  c6_close_idempotent dbTwoRecords 1 "d1" "d2" (by decide) (by decide)

/-- C6 counterexample: closing with a company id that has no cycle at
all returns exactly the same reported `noActive` no-op as closing an
already-closed company — the code never produces a distinct not-found
failure for a nonexistent cycle. -/
theorem c6_counterexample :
    cerrarCiclo dbClosedCycle (some 99) "2025-05-01" = (dbClosedCycle, CloseResult.noActive)
    ∧ cerrarCiclo dbClosedCycle (some 1) "2025-05-01"
        = (dbClosedCycle, CloseResult.noActive) := by
  constructor <;> rfl

/-- C3 (amended): opening a new cycle for company `e0` deactivates and
close-stamps every previously active cycle of `e0` and touches no cycle
of any other company, but it leaves the `mantenimiento` table completely
unchanged — in particular it does NOT set `cerrado := true` on the
records of the previously active cycle.  Those records are nevertheless
locked afterwards, because the editability guard consults the
now-inactive cycle. -/
theorem c3_open_closes_previous (db : DB) (op : OpenOp) (e0 : Nat) (c_prev : Ciclo)
    (hNodup : (db.ciclos.map Ciclo.id).Nodup)
    (hpos : ∀ c ∈ db.ciclos, 0 < c.id)
    (hop : op.empresa_id = some e0) (he0 : e0 ≠ 0)
    (hc : c_prev ∈ db.ciclos) (hact : c_prev.activo = true)
    (hemp : c_prev.empresa_id = some e0) :
    findCiclo (nuevoCiclo db op).1 c_prev.id
      = some { c_prev with activo := false, fecha_cierre := some op.today }
    ∧ (∀ c ∈ db.ciclos, c.empresa_id ≠ some e0 →
        findCiclo (nuevoCiclo db op).1 c.id = some c)
    ∧ (nuevoCiclo db op).1.mantenimiento = db.mantenimiento
    ∧ (∀ m : Mantenimiento, m.ciclo_id = some c_prev.id →
        is_editable (nuevoCiclo db op).1 m = false) := by
  have ht : optTruthy op.empresa_id = true := by
    rw [hop]
    exact optTruthy_some he0
  have hdb : (nuevoCiclo db op).1
      = { db with
          ciclos := db.ciclos.map (deactivaActivos op.empresa_id op.today)
            ++ [nuevoCicloRow db op],
          nextCicloId := db.nextCicloId + 1 } := by
    rw [nuevoCiclo_pos db op ht]
  have hgid := deactivaActivos_id op.empresa_id op.today
  have hfind : ∀ c ∈ db.ciclos,
      ((db.ciclos.map (deactivaActivos op.empresa_id op.today)).find?
        (fun x => x.id == c.id)) = some (deactivaActivos op.empresa_id op.today c) := by
    intro c hcm
    rw [find?_map_of_id (deactivaActivos op.empresa_id op.today) hgid c.id db.ciclos,
      find?_id_of_nodup hNodup hcm]
    rfl
  have hA : findCiclo (nuevoCiclo db op).1 c_prev.id
      = some { c_prev with activo := false, fecha_cierre := some op.today } := by
    rw [hdb]
    show ((db.ciclos.map (deactivaActivos op.empresa_id op.today))
        ++ [nuevoCicloRow db op]).find? (fun x => x.id == c_prev.id) = _
    rw [find?_append_some (hfind c_prev hc)]
    have hdc : deactivaActivos op.empresa_id op.today c_prev
        = { c_prev with activo := false, fecha_cierre := some op.today } := by
      simp [deactivaActivos, hact, hemp, hop]
    rw [hdc]
  refine ⟨hA, ?_, ?_, ?_⟩
  · intro c hcm hcne
    rw [hdb]
    show ((db.ciclos.map (deactivaActivos op.empresa_id op.today))
        ++ [nuevoCicloRow db op]).find? (fun x => x.id == c.id) = some c
    rw [find?_append_some (hfind c hcm)]
    have hdc : deactivaActivos op.empresa_id op.today c = c := by
      have hbe : (c.empresa_id == op.empresa_id) = false := by
        rw [hop]
        exact beq_eq_false_iff_ne.mpr hcne
      simp [deactivaActivos, hbe]
    rw [hdc]
  · rw [hdb]
  · intro m hmc
    have hid0 : c_prev.id ≠ 0 := Nat.pos_iff_ne_zero.mp (hpos c_prev hc)
    cases hcer : m.cerrado with
    | true => simp [is_editable, hcer]
    | false =>
      simp [is_editable, hcer, hmc, optTruthy_some hid0, hA]

/-- C3 witness: opening Q2 for company 1 in `dbOneActive` deactivates
cycle 1, leaves the record table unchanged, and the cycle-1 record is no
longer editable. -/
theorem c3_open_closes_previous_witness :
    findCiclo (nuevoCiclo dbOneActive opW2).1 1
      = some { mkCiclo 1 true (some 1) with activo := false, fecha_cierre := some "2025-04-02" }
    ∧ (nuevoCiclo dbOneActive opW2).1.mantenimiento = dbOneActive.mantenimiento
    ∧ (∀ m : Mantenimiento, m.ciclo_id = some 1 →
        is_editable (nuevoCiclo dbOneActive opW2).1 m = false) := by
  have h := c3_open_closes_previous dbOneActive opW2 1 (mkCiclo 1 true (some 1))
    (by decide) (by decide) (by decide) (by decide) (by decide) (by decide) (by decide)
  exact ⟨h.1, h.2.2.1, h.2.2.2⟩

/-- C3 counterexample: the create-cycle action never touches the record
table — after opening Q2 for company 1, the record of the previously
active cycle still has `cerrado = false`, so the claimed cascade
"set closed=true on all records of the previously active cycle" does not
happen (even though the previous cycle itself was deactivated). -/
theorem c3_counterexample :
    (nuevoCiclo dbOneActive opW2).1.mantenimiento = [mkMant 1 (some 1) (some 1) false "ok"]
    ∧ ¬(∀ m ∈ (nuevoCiclo dbOneActive opW2).1.mantenimiento,
          m.ciclo_id = some 1 → m.cerrado = true)
    ∧ findCiclo (nuevoCiclo dbOneActive opW2).1 1
        = some { mkCiclo 1 true (some 1) with activo := false, fecha_cierre := some "2025-04-02" } := by
  refine ⟨rfl, by decide, ?_⟩
  rfl

/-- C7 (amended): the dashboard total and the search-page total agree
exactly when the dashboard resolves no cycle scope (no cycle selected
and no active cycle in the session scope) and the search page carries no
free-text or site filter; the search page cannot be scoped by cycle at
all, so when the dashboard is cycle-scoped the two operations count
different sets. -/
theorem c7_totals_agree (db : DB) (eSess cParam : Option Nat)
    (h : ciclo_para_consultar db eSess cParam = none) :
    totalPrincipal db eSess cParam = consultarTotal db eSess "" "Todas" := by
  simp only [totalPrincipal, h]
  unfold consultarTotal consultarFiltered
  cases ht : optTruthy eSess with
  | true =>
    have hp : ∀ m ∈ db.mantenimiento,
        (fun m : Mantenimiento => m.empresa_id == eSess) m
          = consultarPred eSess "" "Todas" m := by
      intro m _
      simp [consultarPred, ht]
    rw [if_pos rfl, List.filter_congr hp]
  | false =>
    have hp : ∀ m ∈ db.mantenimiento, consultarPred eSess "" "Todas" m = true := by
      intro m _
      simp [consultarPred, ht]
    rw [if_neg (by simp), List.filter_eq_self.mpr hp]

/-- C7 witness: with no company and no cycle in scope both operations
count the whole (empty) table. -/
theorem c7_totals_agree_witness :
    ciclo_para_consultar dbEmpty none none = none
    ∧ totalPrincipal dbEmpty none none = consultarTotal dbEmpty none "" "Todas" :=
  ⟨rfl, c7_totals_agree dbEmpty none none rfl⟩

/-- C7 counterexample: in `dbTwoRecords` the session company 1 has an
active cycle, so the dashboard auto-scopes to that cycle and reports 1
record, while the search page with the same session and empty filters
scopes only by company and reports 2 — the totals differ for the same
scope and (empty) filter set. -/
theorem c7_counterexample :
    totalPrincipal dbTwoRecords (some 1) none = 1
    ∧ consultarTotal dbTwoRecords (some 1) "" "Todas" = 2
    ∧ totalPrincipal dbTwoRecords (some 1) none
        ≠ consultarTotal dbTwoRecords (some 1) "" "Todas" := by
  refine ⟨rfl, ?_, ?_⟩ <;> decide

/-- C8: `get_active_cycle` scoped to a (real, nonzero) company id returns
a cycle that is active, belongs to that company, and has the highest id
among that company's active cycles (most recently created); without a
company id the same lookup runs unscoped and returns the globally
most-recent active cycle; in either scope it returns the `none` sentinel
exactly when no active cycle exists there; and the save-record action
refuses to insert (reporting `noActiveCycle`, leaving the store
unchanged) whenever the sentinel is returned. -/
theorem c8_get_active_cycle (db : DB) (e : Nat) (he : e ≠ 0) :
    (∀ c, get_active_cycle db (some e) = some c →
      c ∈ db.ciclos ∧ c.activo = true ∧ c.empresa_id = some e ∧
        ∀ c' ∈ db.ciclos, c'.activo = true → c'.empresa_id = some e → c'.id ≤ c.id)
    ∧ (get_active_cycle db (some e) = none ↔
        ∀ c ∈ db.ciclos, ¬(c.activo = true ∧ c.empresa_id = some e))
    ∧ (∀ c, get_active_cycle db none = some c →
        c ∈ db.ciclos ∧ c.activo = true ∧
          ∀ c' ∈ db.ciclos, c'.activo = true → c'.id ≤ c.id)
    ∧ (get_active_cycle db none = none ↔ ∀ c ∈ db.ciclos, ¬(c.activo = true))
    ∧ (∀ (eSess : Option Nat) (nom : String) (f : SaveForm),
        get_active_cycle db eSess = none →
        guardar_mantenimiento db eSess nom f = (db, SaveResult.noActiveCycle)) := by
  have ht := optTruthy_some he
  have hposl := get_active_cycle_pos db (some e) ht
  have hnegl := get_active_cycle_neg db none rfl
  refine ⟨?_, ?_, ?_, ?_, ?_⟩
  · intro c hc
    rw [hposl] at hc
    have hmem := maxById_mem hc
    obtain ⟨hcin, hpred⟩ := List.mem_filter.mp hmem
    have hpred' : c.activo = true ∧ c.empresa_id = some e := by simpa using hpred
    refine ⟨hcin, hpred'.1, hpred'.2, ?_⟩
    intro c' hc'in hc'act hc'emp
    exact maxById_le hc c' (List.mem_filter.mpr ⟨hc'in, by simp [hc'act, hc'emp]⟩)
  · rw [hposl, maxById_eq_none, List.filter_eq_nil_iff]
    constructor
    · intro hall c hcin hand
      exact hall c hcin (by simp [hand.1, hand.2])
    · intro hall c hcin hp
      exact hall c hcin (by simpa using hp)
  · intro c hc
    rw [hnegl] at hc
    have hmem := maxById_mem hc
    obtain ⟨hcin, hpred⟩ := List.mem_filter.mp hmem
    refine ⟨hcin, hpred, ?_⟩
    intro c' hc'in hc'act
    exact maxById_le hc c' (List.mem_filter.mpr ⟨hc'in, hc'act⟩)
  · rw [hnegl, maxById_eq_none, List.filter_eq_nil_iff]
  · intro eSess nom f hnone
    simp [guardar_mantenimiento, hnone]

/-- C8 witness: company 2 of `dbOneActive` has no active cycle, so the
lookup returns the sentinel and a record-save for that scope is refused
concretely; the scoped and unscoped characterizations hold for company
1's active cycle. -/
theorem c8_get_active_cycle_witness :
    get_active_cycle dbOneActive (some 2) = none
    ∧ guardar_mantenimiento dbOneActive (some 2) "Ana" formSave
        = (dbOneActive, SaveResult.noActiveCycle)
    ∧ (∀ c, get_active_cycle dbOneActive (some 1) = some c →
        c ∈ dbOneActive.ciclos ∧ c.activo = true ∧ c.empresa_id = some 1 ∧
          ∀ c' ∈ dbOneActive.ciclos, c'.activo = true → c'.empresa_id = some 1 →
            c'.id ≤ c.id)
    ∧ (∀ c, get_active_cycle dbOneActive none = some c →
        c ∈ dbOneActive.ciclos ∧ c.activo = true ∧
          ∀ c' ∈ dbOneActive.ciclos, c'.activo = true → c'.id ≤ c.id) := by
  refine ⟨rfl, ?_, ?_, ?_⟩
  · exact (c8_get_active_cycle dbOneActive 1 (by decide)).2.2.2.2
      (some 2) "Ana" formSave rfl
  · exact (c8_get_active_cycle dbOneActive 1 (by decide)).1
  · exact (c8_get_active_cycle dbOneActive 1 (by decide)).2.2.1

theorem mem_nil_suffixes (s : List Char) : [] ∈ suffixes s := by
  induction s with
  | nil => exact List.mem_singleton_self []
  | cons c t ih => exact List.mem_cons_of_mem (c :: t) ih

theorem likeMatch_pct (ps s : List Char) :
    likeMatch ('%' :: ps) s = (suffixes s).any (fun t => likeMatch ps t) := by
  simp [likeMatch]

theorem likeMatch_pct_only (s : List Char) : likeMatch ['%'] s = true := by
  rw [likeMatch_pct, List.any_eq_true]
  exact ⟨[], mem_nil_suffixes s, rfl⟩

theorem likeMatch_append_pct (n : List Char) (hn : ∀ ch ∈ n, ch ≠ '%' ∧ ch ≠ '_')
    (t : List Char) : likeMatch (n ++ ['%']) t = isPrefixCI n t := by
  induction n generalizing t with
  | nil => simpa [isPrefixCI] using likeMatch_pct_only t
  | cons c n' ih =>
    have hc := hn c (List.mem_cons_self c n')
    have hihyp : ∀ ch ∈ n', ch ≠ '%' ∧ ch ≠ '_' :=
      fun ch hch => hn ch (List.mem_cons_of_mem c hch)
    have hcu : (c == '_') = false := beq_eq_false_iff_ne.mpr hc.2
    cases t with
    | nil => simp [likeMatch, isPrefixCI, hc.1]
    | cons d t' => simp [likeMatch, isPrefixCI, hc.1, hcu, ih hihyp]

theorem isSubstr_any (n s : List Char) :
    isSubstr n s = (suffixes s).any (fun t => n.isPrefixOf t) := by
  induction s with
  | nil => cases n <;> simp [isSubstr, suffixes, List.isPrefixOf]
  | cons c t ih => simp [isSubstr, suffixes, ih]

theorem suffixes_map (f : Char → Char) (s : List Char) :
    suffixes (s.map f) = (suffixes s).map (List.map f) := by
  induction s with
  | nil => rfl
  | cons c t ih => simp [suffixes, ih]

theorem isPrefixOf_map_toLower (n : List Char) : ∀ t : List Char,
    (n.map Char.toLower).isPrefixOf (t.map Char.toLower) = isPrefixCI n t := by
  induction n with
  | nil => intro t; simp [isPrefixCI, List.isPrefixOf]
  | cons c n' ih =>
    intro t
    cases t with
    | nil => simp [isPrefixCI, List.isPrefixOf]
    | cons d t' => simp [isPrefixCI, List.isPrefixOf, charEqI, ih t']

theorem ilike_pct_eq_containsCI (hay tok : String)
    (hw : ∀ ch ∈ tok.data, ch ≠ '%' ∧ ch ≠ '_') :
    ilike hay ("%" ++ tok ++ "%") = containsCI hay tok := by
  have hdata : ("%" ++ tok ++ "%").data = '%' :: (tok.data ++ ['%']) := rfl
  unfold ilike containsCI
  rw [hdata, likeMatch_pct]
  have hB : (fun t => likeMatch (tok.data ++ ['%']) t)
      = (fun t : List Char => isPrefixCI tok.data t) := by
    funext t
    exact likeMatch_append_pct tok.data hw t
  rw [hB, isSubstr_any, suffixes_map, List.any_map]
  congr 1
  funext t
  exact (isPrefixOf_map_toLower tok.data t).symm

/-- C9 (amended): the free-text filter embeds the raw search text
between two `%` in an ILIKE pattern, OR-ed over the ten listed fields.
For a non-empty token free of the SQL wildcard and escape characters
`%`, `_` and backslash, that test is exactly case-insensitive substring
containment, so if such a token occurs — case-insensitively — in the
observations of a record `r` that appears once in the table, and no
other record matches the token in any of the ten fields, the filtered
result set and its first page are exactly `[r]`.  A token containing a
wildcard is passed through unescaped and can match further records. -/
theorem c9_search_unique (db : DB) (tok : String) (r : Mantenimiento)
    (htok : tok ≠ "")
    (hwild : ∀ ch ∈ tok.data, ch ≠ '%' ∧ ch ≠ '_' ∧ ch ≠ '\\')
    (hmem : r ∈ db.mantenimiento)
    (hcount : db.mantenimiento.count r = 1)
    (hobs : containsCI r.observaciones tok = true)
    (honly : ∀ r' ∈ db.mantenimiento, matchesSearch tok r' = true → r' = r) :
    consultarFiltered db none tok "Todas" = [r]
    ∧ consultarPage db none tok "Todas" 1 = [r] := by
  have hw : ∀ ch ∈ tok.data, ch ≠ '%' ∧ ch ≠ '_' :=
    fun ch hch => ⟨(hwild ch hch).1, (hwild ch hch).2.1⟩
  have hpred : ∀ m ∈ db.mantenimiento,
      consultarPred none tok "Todas" m = matchesSearch tok m := by
    intro m _
    simp [consultarPred, optTruthy, htok]
  have hfeq : consultarFiltered db none tok "Todas"
      = db.mantenimiento.filter (matchesSearch tok) := by
    unfold consultarFiltered
    exact List.filter_congr hpred
  have hrm : matchesSearch tok r = true := by
    unfold matchesSearch
    rw [ilike_pct_eq_containsCI r.observaciones tok hw, hobs]
    simp
  have hrf : r ∈ db.mantenimiento.filter (matchesSearch tok) :=
    List.mem_filter.mpr ⟨hmem, hrm⟩
  have hall : ∀ x ∈ db.mantenimiento.filter (matchesSearch tok), x = r := by
    intro x hx
    obtain ⟨hx1, hx2⟩ := List.mem_filter.mp hx
    exact honly x hx1 hx2
  have hcnt_le : (db.mantenimiento.filter (matchesSearch tok)).count r ≤ 1 := by
    calc (db.mantenimiento.filter (matchesSearch tok)).count r
        ≤ db.mantenimiento.count r := List.Sublist.count_le (List.filter_sublist _) r
      _ = 1 := hcount
  have hcnt_ge : 0 < (db.mantenimiento.filter (matchesSearch tok)).count r :=
    List.count_pos_iff.mpr hrf
  have hcnt : (db.mantenimiento.filter (matchesSearch tok)).count r = 1 :=
    le_antisymm hcnt_le hcnt_ge
  have hlen : (db.mantenimiento.filter (matchesSearch tok)).length = 1 := by
    rw [← List.count_eq_length.mpr (fun b hb => (hall b hb).symm)]
    exact hcnt
  obtain ⟨x, hx⟩ := List.length_eq_one.mp hlen
  have hxr : x = r := hall x (by rw [hx]; exact List.mem_singleton_self x)
  have hfr : consultarFiltered db none tok "Todas" = [r] := by
    rw [hfeq, hx, hxr]
  refine ⟨hfr, ?_⟩
  unfold consultarPage
  rw [hfr]
  rfl

/-- C9 witness: the wildcard-free token "xyzt" occurs only in the
observations of record 1 of `dbSearch`; filtering returns exactly that
record. -/
theorem c9_search_unique_witness :
    consultarFiltered dbSearch none "xyzt" "Todas" = [mkMant 1 none none false "revisar xyzt pronto"]
    ∧ consultarPage dbSearch none "xyzt" "Todas" 1 = [mkMant 1 none none false "revisar xyzt pronto"] :=
  c9_search_unique dbSearch "xyzt" (mkMant 1 none none false "revisar xyzt pronto")
    (by decide) (by decide) (by decide) (by decide) (by decide) (by decide)

/-- C9 counterexample: the search text goes into the ILIKE pattern
unescaped (app.py line 838), so the SQL wildcard `_` in the token "a_b"
also matches the record whose observations contain "aXb".  The token
occurs as a case-insensitive substring only in the observations of
record 1 — the claim's premise holds — yet the filter returns both
records instead of exactly that one. -/
theorem c9_counterexample :
    containsCI (mkMant 1 none none false "ver a_b hoy").observaciones "a_b" = true
    ∧ (∀ r' ∈ dbWild.mantenimiento,
        containsCI r'.sede "a_b" = false ∧ containsCI r'.area "a_b" = false
        ∧ containsCI r'.tecnico "a_b" = false
        ∧ containsCI r'.nombre_maquina "a_b" = false
        ∧ containsCI r'.usuario "a_b" = false
        ∧ containsCI r'.tipo_equipo "a_b" = false
        ∧ containsCI r'.marca "a_b" = false ∧ containsCI r'.modelo "a_b" = false
        ∧ containsCI r'.serial "a_b" = false)
    ∧ containsCI (mkMant 2 none none false "ver aXb hoy").observaciones "a_b" = false
    ∧ consultarFiltered dbWild none "a_b" "Todas"
        = [mkMant 1 none none false "ver a_b hoy", mkMant 2 none none false "ver aXb hoy"]
    ∧ consultarFiltered dbWild none "a_b" "Todas"
        ≠ [mkMant 1 none none false "ver a_b hoy"] := by
  refine ⟨?_, ?_, ?_, ?_, ?_⟩ <;> decide

